import Mathlib

/-!
Verification development for the launch-configurator script of this
repository (src/start-odoo.py).

The script is a straight-line sequence of conditionals over command-line
flags and observations of external collaborators (git, psql, dropdb, the
server launcher).  We embed it shallowly:

* Python strings are modelled as lists of characters (`Str`).
* The observable behaviour of the external collaborators during one run is
  collected in a `World` record: the two branch names, the dirty flags, the
  raw stdout of the two psql queries (`none` models a raised
  `CalledProcessError`, i.e. the query could not be run), whether `dropdb`
  succeeds, and the reply typed at the confirmation prompt.  The model
  assumes the git invocations themselves succeed; their failure raises an
  uncaught exception that terminates the run and is outside all claims.
* `main` of the script becomes the pure function `mainRun`, returning an
  `Outcome`: whether the drop operation was attempted plus a terminal
  `Decision` (status report printed, branches cleaned/listed, fatal error
  from a failed drop, user-cancelled quit, flavor-mismatch quit, or a
  launch of the server with an assembled argument string).
* `quit()` in Python raises `SystemExit(None)`, which terminates the
  process with exit status 0; an uncaught `CalledProcessError` terminates
  it with status 1.  `exitCodeOf` records these, with `none` for outcomes
  whose exit status is inherited from an external process.
-/

set_option maxRecDepth 16384

namespace StartOdoo

/-- Python strings are modelled as lists of characters. -/
abbrev Str := List Char

/-- Module-level constant DB_NAME (line 7 of the source). -/
def DB_NAME : Str := "testdb".toList

/-- Module-level constant DB_USER (line 8). -/
def DB_USER : Str := "odoo".toList

/-- Module-level constant DB_PASSWORD (line 9). -/
def DB_PASSWORD : Str := "odoo".toList

/-- Does `pat` occur in `s` starting exactly at position `i`? -/
def matchesAt (s pat : Str) (i : Nat) : Bool :=
  decide ((s.drop i).take pat.length = pat)

/-- The Python substring operator `pat in s`. -/
def pyIn (pat s : Str) : Bool :=
  (List.range (s.length + 1)).any (fun i => matchesAt s pat i)

/-- Python `str.split()` with no argument: split on runs of whitespace,
discarding empty pieces. -/
def isPySpace (c : Char) : Bool :=
  c = ' ' ∨ c = '\t' ∨ c = '\n' ∨ c = '\r' ∨ c = '\x0b' ∨ c = '\x0c'

/-- Python `s.split()` (whitespace split, empties dropped). -/
def pySplitWs (s : Str) : List Str :=
  (List.splitOnP isPySpace s).filter (fun t => ¬ t = [])

/-- Python `" ".join(xs)`. -/
def joinSpace (xs : List Str) : Str := List.intercalate " ".toList xs

/-- Command-line flags parsed by `parse_args` (lines 158-188), with the
`argparse` destination names of the source. -/
structure Config where
  enterprise : Bool
  test : Bool
  drop_db : Bool
  clean_branches : Bool
  list_branches : Bool
  web : Bool
  status : Bool
deriving Repr, DecidableEq

/-- All flags off: the `argparse` defaults for `store_true` actions. -/
def emptyConfig : Config :=
  { enterprise := false, test := false, drop_db := false,
    clean_branches := false, list_branches := false,
    web := false, status := false }

/-- One external run of the script: the observations the external
collaborators would deliver if asked. -/
structure World where
  releaseVersion : Str
  communityBranch : Str
  communityDirty : Bool
  enterpriseBranch : Str
  enterpriseDirty : Bool
  dbVersionQuery : Option Str
  dbEnterpriseQuery : Option Str
  dropOk : Bool
  confirmReply : Str
deriving Repr, DecidableEq

/-- Replace the two DB-query observations of a world (used to state that a
run never consults the DB observation). -/
def setDb (w : World) (q1 q2 : Option Str) : World :=
  { w with dbVersionQuery := q1, dbEnterpriseQuery := q2 }

/-- Replace the confirmation-prompt reply of a world (used to state that a
run never prompts). -/
def setReply (w : World) (r : Str) : World := { w with confirmReply := r }

/-- `get_db_version` (lines 48-60): run the two psql queries, parse the
version from the third whitespace token of the first answer, append
" (enterprise)" when the second answer reports a row; any raised error or
failed index access yields the sentinel "?". -/
def get_db_version (w : World) : Str :=
  match w.dbVersionQuery with
  | none => "?".toList
  | some out1 =>
    match (pySplitWs out1).get? 2 with
    | none => "?".toList
    | some result_line =>
      let db_version := List.intercalate ".".toList ((List.splitOn '.' result_line).take 2)
      match w.dbEnterpriseQuery with
      | none => "?".toList
      | some out2 =>
        if pyIn "1 row".toList out2 then db_version ++ " (enterprise)".toList
        else db_version

/-- Line 230: `is_db_enterprise = "enterprise" in get_db_version()`. -/
def dbIsEnterprise (w : World) : Bool := pyIn "enterprise".toList (get_db_version w)

/-- `read_git_branch` with `with_status=True` (lines 35-45): append " (*)"
to the branch name when the working tree is dirty. -/
def branchWithStatus (name : Str) (dirty : Bool) : Str :=
  if dirty then name ++ " (*)".toList else name

/-- Python `"\x7b:<18\x7d".format(label)`: left-justify to width 18. -/
def ljust (s : Str) (n : Nat) : Str := s ++ List.replicate (n - s.length) ' '

/-- One line of the status report: label left-justified to 18, a space,
then the value. -/
def statusLine (label value : Str) : Str := ljust label 18 ++ " ".toList ++ value

/-- `show_status` (lines 129-138): the four report lines. -/
def showStatusLines (w : World) : List Str :=
  [ statusLine "Odoo server:".toList w.releaseVersion,
    statusLine (DB_NAME ++ " version:".toList) (get_db_version w),
    statusLine "Community branch:".toList (branchWithStatus w.communityBranch w.communityDirty),
    statusLine "Enterprise branch:".toList (branchWithStatus w.enterpriseBranch w.enterpriseDirty) ]

/-- The separator token `--` handled by `parse_args` (line 163). -/
def sep : Str := "--".toList

/-- The loop of `parse_args` (lines 162-165).  Python iterates
`enumerate(args)` over the ORIGINAL list object while the name `args` is
rebound inside the loop, so the scan continues over the original tokens
while slices are taken from the current (possibly already truncated)
value of `args`.  `rem` is the not-yet-scanned tail of the original list,
`i` the current index, `args` and `odoo` the current values of the two
Python variables. -/
def parseSplitGo : List Str → Nat → List Str → List Str → List Str × List Str
  | [], _, args, odoo => (args, odoo)
  | v :: rest, i, args, odoo =>
    if v = sep then parseSplitGo rest (i + 1) (args.take i) (args.drop (i + 1))
    else parseSplitGo rest (i + 1) args odoo

/-- Lines 159-165 of `parse_args`: split the command line into the tokens
given to argparse and the passthrough tokens. -/
def parseSplit (argv : List Str) : List Str × List Str := parseSplitGo argv 0 argv []

/-- One `store_true` flag of the argparse parser (lines 167-187): set the
matching field, or fail (argparse errors out) on an unrecognised token.
Prefix abbreviations and combined short options are not modelled. -/
def applyFlag (cfg : Config) (tok : Str) : Option Config :=
  if tok = "-e".toList ∨ tok = "--enterprise".toList then some { cfg with enterprise := true }
  else if tok = "-t".toList ∨ tok = "--test".toList then some { cfg with test := true }
  else if tok = "-d".toList ∨ tok = "--drop-db".toList then some { cfg with drop_db := true }
  else if tok = "--clean-branches".toList then some { cfg with clean_branches := true }
  else if tok = "-l".toList ∨ tok = "--list-branches".toList then some { cfg with list_branches := true }
  else if tok = "-w".toList ∨ tok = "--web".toList then some { cfg with web := true }
  else if tok = "-s".toList ∨ tok = "--status".toList then some { cfg with status := true }
  else none

/-- The argparse phase of `parse_args` over the non-passthrough tokens. -/
def parseFlags (args : List Str) : Option Config := args.foldlM applyFlag emptyConfig

/-- Lines 209-210: `if config.web: config.test = True` — the only mutation
of the parsed configuration. -/
def applyWebImpliesTest (cfg : Config) : Config :=
  if cfg.web = true then { cfg with test := true } else cfg

/-- Line 232-236: the two flavor-mismatch error messages. -/
def msgDbIsEnterprise : Str :=
  "Error: no enterprise addons requested, but current db is enterprise".toList

/-- The message printed when enterprise was requested but the db is not
enterprise (line 235). -/
def msgDbNotEnterprise : Str :=
  "Error: enterprise addons requested, but current db is not enterprise".toList

/-- Line 241: the addons path. -/
def addonsPath (cfg : Config) : Str :=
  if cfg.enterprise = true then "addons,../enterprise".toList else "addons".toList

/-- Line 242: the base argument string. -/
def baseArgs (cfg : Config) : Str :=
  "-r ".toList ++ DB_USER ++ " -w ".toList ++ DB_PASSWORD ++ " -d ".toList ++ DB_NAME
    ++ " --db-filter=".toList ++ DB_NAME ++ " --dev=all --addons-path ".toList
    ++ addonsPath cfg ++ " ".toList

/-- Lines 245-247: the test arguments, with the web suite tag filter
appended when web mode is on. -/
def testArgs (cfg : Config) : Str :=
  if cfg.web = true then
    " --test-enable --stop-after-init ".toList ++ "--test-tags /web:WebSuite ".toList
  else " --test-enable --stop-after-init ".toList

/-- Lines 244-250: the full argument string handed to `start_odoo`. -/
def assembled (cfg : Config) (odoo : List Str) : Str :=
  if cfg.test = true then baseArgs cfg ++ testArgs cfg ++ joinSpace odoo
  else baseArgs cfg ++ " ".toList ++ joinSpace odoo

/-- The terminal result of one run of `main`. -/
inductive Decision where
  | statusShown : List Str → Decision
  | branchesCleaned : Decision
  | branchesListed : Decision
  | fatalError : Decision
  | userCancelled : Decision
  | flavorMismatch : Str → Decision
  | launch : Str → Decision
deriving Repr, DecidableEq

/-- The process exit status implied by a decision: `quit()` exits 0, an
uncaught `CalledProcessError` exits 1, and for the cleaned/launch paths
the status depends on external processes (`none`). -/
def exitCodeOf : Decision → Option Nat
  | .statusShown _ => some 0
  | .branchesCleaned => some 0
  | .branchesListed => some 0
  | .fatalError => some 1
  | .userCancelled => some 0
  | .flavorMismatch _ => some 0
  | .launch _ => none

/-- The outcome of a run: whether `dropdb` was invoked, and the decision. -/
structure Outcome where
  dropAttempted : Bool
  decision : Decision
deriving Repr, DecidableEq

/-- Lines 212-250 of `main`, after the early-exit commands and the drop:
web forces test (209-210), the branch-consistency prompt (213-227, the
run quits when the reply is exactly "n"), the flavor check (229-238,
skipped when a drop was requested), then argument assembly and launch. -/
def mainCore (cfg0 : Config) (odoo : List Str) (w : World) : Decision :=
  let cfg := applyWebImpliesTest cfg0
  if cfg.enterprise = true ∧ ¬ w.communityBranch = w.enterpriseBranch
      ∧ w.confirmReply = "n".toList then
    .userCancelled
  else if cfg.drop_db = false ∧ ¬ dbIsEnterprise w = cfg.enterprise then
    .flavorMismatch (if dbIsEnterprise w = true then msgDbIsEnterprise else msgDbNotEnterprise)
  else
    .launch (assembled cfg odoo)

/-- `main` (lines 191-250): status, clean-branches and list-branches exit
first; then the drop (whose failure is a fatal uncaught error); then the
core logic. -/
def mainRun (cfg : Config) (odoo : List Str) (w : World) : Outcome :=
  if cfg.status = true then ⟨false, .statusShown (showStatusLines w)⟩
  else if cfg.clean_branches = true then ⟨false, .branchesCleaned⟩
  else if cfg.list_branches = true then ⟨false, .branchesListed⟩
  else if cfg.drop_db = true ∧ w.dropOk = false then ⟨true, .fatalError⟩
  else ⟨cfg.drop_db, mainCore cfg odoo w⟩

/-- The whole script on a command line: split off the passthrough tokens,
parse the flags (`none` = argparse usage error), then run `main`. -/
def pipeline (argv : List Str) (w : World) : Option Outcome :=
  (parseFlags (parseSplit argv).1).map (fun cfg => mainRun cfg (parseSplit argv).2 w)

/-- Modelled from the spec (section 6 and the glossary): the passthrough
arguments are the tokens following the (first) `--` separator on the
command line. -/
def specPassthrough : List Str → List Str
  | [] => []
  | v :: rest => if v = sep then rest else specPassthrough rest

/-- Modelled from the spec: the tokens before the first `--` separator,
the ones argparse should see. -/
def specFront : List Str → List Str
  | [] => []
  | v :: rest => if v = sep then [] else v :: specFront rest

/-- Three patterns occur in `s` in the given order (at strictly increasing
positions). -/
def InOrder3 (s p1 p2 p3 : Str) : Prop :=
  ∃ i j k : Nat, i < j ∧ j < k ∧
    matchesAt s p1 i = true ∧ matchesAt s p2 j = true ∧ matchesAt s p3 k = true

/-! ### Basic lemmas about the substring machinery -/

lemma matchesAt_le {s pat : Str} {i : Nat} (hp : pat ≠ [])
    (h : matchesAt s pat i = true) : i + pat.length ≤ s.length := by
  simp only [matchesAt, decide_eq_true_eq] at h
  have hlen := congrArg List.length h
  rw [List.length_take, List.length_drop] at hlen
  have hpos : 0 < pat.length := List.length_pos.mpr hp
  omega

lemma matchesAt_append_left {s pat : Str} (c : Str) {i : Nat}
    (h : i + pat.length ≤ s.length) :
    matchesAt (s ++ c) pat i = matchesAt s pat i := by
  have hkey : ((s ++ c).drop i).take pat.length = (s.drop i).take pat.length := by
    rw [List.drop_append_eq_append_drop]
    have h1 : i - s.length = 0 := by omega
    rw [h1, List.drop_zero, List.take_append_eq_append_take]
    have h2 : pat.length - (s.drop i).length = 0 := by
      rw [List.length_drop]; omega
    rw [h2, List.take_zero, List.append_nil]
  simp only [matchesAt, hkey]

lemma pyIn_eq_true_iff (pat s : Str) :
    pyIn pat s = true ↔ ∃ u v, s = u ++ pat ++ v := by
  constructor
  · intro h
    simp only [pyIn, List.any_eq_true, List.mem_range] at h
    obtain ⟨i, _, hm⟩ := h
    simp only [matchesAt, decide_eq_true_eq] at hm
    refine ⟨s.take i, (s.drop i).drop pat.length, ?_⟩
    have h2 := List.take_append_drop pat.length (s.drop i)
    rw [hm] at h2
    calc s = s.take i ++ s.drop i := (List.take_append_drop i s).symm
      _ = s.take i ++ (pat ++ (s.drop i).drop pat.length) := by rw [h2]
      _ = s.take i ++ pat ++ (s.drop i).drop pat.length := by rw [List.append_assoc]
  · rintro ⟨u, v, rfl⟩
    simp only [pyIn, List.any_eq_true, List.mem_range]
    refine ⟨u.length, ?_, ?_⟩
    · simp only [List.length_append]; omega
    · simp only [matchesAt, decide_eq_true_eq, List.append_assoc, List.drop_left,
        List.take_left]

lemma pyIn_append_mid {pat t : Str} (a b : Str) (h : pyIn pat t = true) :
    pyIn pat (a ++ t ++ b) = true := by
  rw [pyIn_eq_true_iff] at h ⊢
  obtain ⟨u, v, rfl⟩ := h
  exact ⟨a ++ u, v ++ b, by simp only [List.append_assoc]⟩

/-! ### Lemmas about the passthrough-splitting loop of parse_args -/

lemma parseSplitGo_no_sep (rem : List Str) (i : Nat) (args odoo : List Str)
    (h : sep ∉ rem) : parseSplitGo rem i args odoo = (args, odoo) := by
  induction rem generalizing i with
  | nil => rfl
  | cons v rest ih =>
    simp only [List.mem_cons, not_or] at h
    simp only [parseSplitGo]
    rw [if_neg (fun hv => h.1 hv.symm)]
    exact ih (i + 1) h.2

lemma parseSplitGo_one_sep (post : List Str) (hpost : sep ∉ post) (pre : List Str)
    (hpre : sep ∉ pre) (i : Nat) (A odoo : List Str) :
    parseSplitGo (pre ++ sep :: post) i A odoo =
      (A.take (i + pre.length), A.drop (i + pre.length + 1)) := by
  induction pre generalizing i odoo with
  | nil =>
    simp only [List.nil_append, parseSplitGo, if_pos rfl]
    rw [parseSplitGo_no_sep post _ _ _ hpost]
    simp
  | cons p pre ih =>
    simp only [List.mem_cons, not_or] at hpre
    have hv : ¬ p = sep := fun hv => hpre.1 hv.symm
    have hstep : parseSplitGo ((p :: pre) ++ sep :: post) i A odoo
        = parseSplitGo (pre ++ sep :: post) (i + 1) A odoo := by
      rw [List.cons_append]
      simp only [parseSplitGo]
      rw [if_neg hv]
    rw [hstep, ih hpre.2 (i + 1) odoo]
    have h1 : i + 1 + pre.length = i + (p :: pre).length := by
      simp only [List.length_cons]; omega
    rw [h1]

lemma first_sep_decomp (argv : List Str) (h : sep ∈ argv) :
    ∃ pre post, argv = pre ++ sep :: post ∧ sep ∉ pre ∧
      specFront argv = pre ∧ specPassthrough argv = post := by
  induction argv with
  | nil => cases h
  | cons v rest ih =>
    by_cases hv : v = sep
    · subst hv
      exact ⟨[], rest, rfl, by simp, by simp [specFront], by simp [specPassthrough]⟩
    · have hmem : sep ∈ rest := by
        rcases List.mem_cons.mp h with h1 | h1
        · exact absurd h1.symm hv
        · exact h1
      obtain ⟨pre, post, heq, hpre, hf, hp⟩ := ih hmem
      refine ⟨v :: pre, post, by rw [List.cons_append, heq], ?_, ?_, ?_⟩
      · simp only [List.mem_cons, not_or]
        exact ⟨fun hs => hv hs.symm, hpre⟩
      · simp only [specFront, if_neg hv, hf]
      · simp only [specPassthrough, if_neg hv, hp]

lemma specFront_no_sep (argv : List Str) (h : sep ∉ argv) : specFront argv = argv := by
  induction argv with
  | nil => rfl
  | cons v rest ih =>
    simp only [List.mem_cons, not_or] at h
    have hv : ¬ v = sep := fun hv => h.1 hv.symm
    simp only [specFront, if_neg hv]
    rw [ih h.2]

lemma specPassthrough_no_sep (argv : List Str) (h : sep ∉ argv) :
    specPassthrough argv = [] := by
  induction argv with
  | nil => rfl
  | cons v rest ih =>
    simp only [List.mem_cons, not_or] at h
    have hv : ¬ v = sep := fun hv => h.1 hv.symm
    simp only [specPassthrough, if_neg hv]
    exact ih h.2

lemma parseSplit_eq_spec (argv : List Str) (h : argv.count sep ≤ 1) :
    parseSplit argv = (specFront argv, specPassthrough argv) := by
  by_cases hmem : sep ∈ argv
  · obtain ⟨pre, post, heq, hpre, hf, hp⟩ := first_sep_decomp argv hmem
    have hpost : sep ∉ post := by
      rw [heq, List.count_append, List.count_cons] at h
      have h0 : pre.count sep = 0 := List.count_eq_zero.mpr hpre
      rw [← List.count_eq_zero]
      simp only [beq_self_eq_true, if_true] at h
      omega
    rw [hf, hp]
    unfold parseSplit
    rw [heq, parseSplitGo_one_sep post hpost pre hpre 0 _ []]
    have ht : (pre ++ sep :: post).take (0 + pre.length) = pre := by
      simp only [Nat.zero_add]; exact List.take_left ..
    have hd : (pre ++ sep :: post).drop (0 + pre.length + 1) = post := by
      have h2 : pre ++ sep :: post = (pre ++ [sep]) ++ post := by
        simp only [List.append_assoc, List.singleton_append]
      rw [h2, List.drop_left']
      simp only [List.length_append, List.length_cons, List.length_nil]
      omega
    rw [ht, hd]
  · rw [specFront_no_sep argv hmem, specPassthrough_no_sep argv hmem]
    unfold parseSplit
    exact parseSplitGo_no_sep argv 0 argv [] hmem

/-! ### Lemmas about the main control flow -/

@[simp] lemma applyWeb_enterprise (cfg : Config) :
    (applyWebImpliesTest cfg).enterprise = cfg.enterprise := by
  unfold applyWebImpliesTest; split <;> rfl

@[simp] lemma applyWeb_drop_db (cfg : Config) :
    (applyWebImpliesTest cfg).drop_db = cfg.drop_db := by
  unfold applyWebImpliesTest; split <;> rfl

@[simp] lemma applyWeb_web (cfg : Config) :
    (applyWebImpliesTest cfg).web = cfg.web := by
  unfold applyWebImpliesTest; split <;> rfl

@[simp] lemma applyWeb_status (cfg : Config) :
    (applyWebImpliesTest cfg).status = cfg.status := by
  unfold applyWebImpliesTest; split <;> rfl

@[simp] lemma applyWeb_test (cfg : Config) :
    (applyWebImpliesTest cfg).test = (cfg.test || cfg.web) := by
  unfold applyWebImpliesTest
  split
  · next h => rw [h]; simp
  · next h =>
      simp only [Bool.not_eq_true] at h
      rw [h]; simp

lemma mainRun_core (cfg : Config) (odoo : List Str) (w : World)
    (hs : cfg.status = false) (hc : cfg.clean_branches = false)
    (hl : cfg.list_branches = false)
    (hd : ¬ (cfg.drop_db = true ∧ w.dropOk = false)) :
    mainRun cfg odoo w = ⟨cfg.drop_db, mainCore cfg odoo w⟩ := by
  unfold mainRun
  rw [if_neg (by rw [hs]; exact Bool.false_ne_true),
    if_neg (by rw [hc]; exact Bool.false_ne_true),
    if_neg (by rw [hl]; exact Bool.false_ne_true), if_neg hd]

lemma mainCore_userCancelled (cfg : Config) (odoo : List Str) (w : World)
    (he : cfg.enterprise = true) (hb : ¬ w.communityBranch = w.enterpriseBranch)
    (hr : w.confirmReply = "n".toList) :
    mainCore cfg odoo w = .userCancelled := by
  unfold mainCore
  rw [if_pos ⟨by rw [applyWeb_enterprise, he], hb, hr⟩]

lemma mainCore_flavorMismatch (cfg : Config) (odoo : List Str) (w : World)
    (hdrop : cfg.drop_db = false)
    (hmm : ¬ dbIsEnterprise w = cfg.enterprise)
    (hnod : ¬ (cfg.enterprise = true ∧ ¬ w.communityBranch = w.enterpriseBranch
      ∧ w.confirmReply = "n".toList)) :
    mainCore cfg odoo w = .flavorMismatch
      (if dbIsEnterprise w = true then msgDbIsEnterprise else msgDbNotEnterprise) := by
  unfold mainCore
  rw [if_neg (by simpa using hnod),
    if_pos ⟨by rw [applyWeb_drop_db, hdrop], by simpa using hmm⟩]

lemma mainCore_launch (cfg : Config) (odoo : List Str) (w : World)
    (hnod : ¬ (cfg.enterprise = true ∧ ¬ w.communityBranch = w.enterpriseBranch
      ∧ w.confirmReply = "n".toList))
    (hfl : ¬ (cfg.drop_db = false ∧ ¬ dbIsEnterprise w = cfg.enterprise)) :
    mainCore cfg odoo w = .launch (assembled (applyWebImpliesTest cfg) odoo) := by
  unfold mainCore
  rw [if_neg (by simpa using hnod), if_neg (by simpa using hfl)]

lemma mainRun_launch_shape (cfg : Config) (odoo : List Str) (w : World) (s : Str)
    (h : (mainRun cfg odoo w).decision = .launch s) :
    s = assembled (applyWebImpliesTest cfg) odoo := by
  unfold mainRun at h
  split at h
  · cases h
  · split at h
    · cases h
    · split at h
      · cases h
      · split at h
        · cases h
        · unfold mainCore at h
          simp only at h
          split at h
          · cases h
          · split at h
            · cases h
            · exact (Decision.launch.injEq .. ▸ h).symm

lemma assembled_ends_with_join (cfg : Config) (odoo : List Str) :
    ∃ p, assembled cfg odoo = p ++ joinSpace odoo := by
  unfold assembled
  split
  · exact ⟨baseArgs cfg ++ testArgs cfg, by rw [List.append_assoc]⟩
  · exact ⟨baseArgs cfg ++ " ".toList, by rw [List.append_assoc]⟩

lemma flavorMismatch_drop_false (cfg : Config) (odoo : List Str) (w : World) (m : Str)
    (h : (mainRun cfg odoo w).decision = .flavorMismatch m) : cfg.drop_db = false := by
  unfold mainRun at h
  split at h
  · cases h
  · split at h
    · cases h
    · split at h
      · cases h
      · split at h
        · cases h
        · unfold mainCore at h
          simp only at h
          split at h
          · cases h
          · split at h
            · next hcond =>
                rw [← applyWeb_drop_db cfg]
                exact hcond.1
            · cases h

@[simp] lemma setDb_communityBranch (w : World) (q1 q2 : Option Str) :
    (setDb w q1 q2).communityBranch = w.communityBranch := rfl

@[simp] lemma setDb_enterpriseBranch (w : World) (q1 q2 : Option Str) :
    (setDb w q1 q2).enterpriseBranch = w.enterpriseBranch := rfl

@[simp] lemma setDb_confirmReply (w : World) (q1 q2 : Option Str) :
    (setDb w q1 q2).confirmReply = w.confirmReply := rfl

@[simp] lemma setDb_dropOk (w : World) (q1 q2 : Option Str) :
    (setDb w q1 q2).dropOk = w.dropOk := rfl

lemma mainCore_setDb (cfg : Config) (odoo : List Str) (w : World) (q1 q2 : Option Str)
    (hdrop : cfg.drop_db = true) :
    mainCore cfg odoo (setDb w q1 q2) = mainCore cfg odoo w := by
  have hfl : ∀ w' : World, ¬ ((applyWebImpliesTest cfg).drop_db = false ∧
      ¬ dbIsEnterprise w' = (applyWebImpliesTest cfg).enterprise) := by
    intro w'
    rw [applyWeb_drop_db, hdrop]
    exact fun hp => Bool.noConfusion hp.1
  unfold mainCore
  simp only [setDb_communityBranch, setDb_enterpriseBranch, setDb_confirmReply]
  rw [if_neg (hfl (setDb w q1 q2)), if_neg (hfl w)]

/-! ### Concrete fixtures used to instantiate the theorems -/

/-- Equal clean branches, an unreachable database, a working dropdb, empty
prompt reply. -/
def wNoDb : World :=
  { releaseVersion := "15.0".toList, communityBranch := "main".toList,
    communityDirty := false, enterpriseBranch := "main".toList,
    enterpriseDirty := false, dbVersionQuery := none, dbEnterpriseQuery := none,
    dropOk := true, confirmReply := "".toList }

/-- Same as `wNoDb` but the database answers both queries and reports the
enterprise marker module installed. -/
def wEntDb : World :=
  { wNoDb with
    dbVersionQuery := some " latest_version\n---\n 17.0.1.3\n(1 row)".toList,
    dbEnterpriseQuery := some "(1 row)".toList }

/-- The configuration parsed from a lone `-w` flag. -/
def cfgWebOnly : Config := { emptyConfig with web := true }

/-- The argument string assembled in scenario B (web test mode, enterprise
not requested) before the passthrough arguments are appended. -/
def scenarioBString : Str :=
  ("-r odoo -w odoo -d testdb --db-filter=testdb --dev=all --addons-path addons " ++
    " --test-enable --stop-after-init --test-tags /web:WebSuite ").toList

/-! ### Claim C1 -/

/-- Claim C1 counterexample: the claim as stated requires a NON-ZERO exit
code for the flavor-mismatch abort.  At this concrete input (enterprise
requested, no drop, database unreachable hence not enterprise) the run
does abort with the mismatch message, but the abort is a Python `quit()`,
whose exit status is 0 — so the non-zero part of the claim is false. -/
theorem c1_nonzero_exit_cex :
    (mainRun { emptyConfig with enterprise := true } [] wNoDb).decision
        = Decision.flavorMismatch msgDbNotEnterprise
      ∧ exitCodeOf (mainRun { emptyConfig with enterprise := true } [] wNoDb).decision
        = some 0 := by
  constructor
  · decide
  · decide

/-- Claim C1, amended (exit code 0 instead of non-zero): for every
invocation that reaches the flavor check (status, clean-branches and
list-branches off, no drop requested, the prompt not declined) where the
DB enterprise flag disagrees with the requested flavor, the run aborts
with the message naming the inconsistent side, the exit status is 0, and
no launch is attempted. -/
theorem c1_flavor_mismatch_aborts (cfg : Config) (odoo : List Str) (w : World)
    (hs : cfg.status = false) (hc : cfg.clean_branches = false)
    (hl : cfg.list_branches = false) (hdrop : cfg.drop_db = false)
    (hmm : ¬ dbIsEnterprise w = cfg.enterprise)
    (hnod : ¬ (cfg.enterprise = true ∧ ¬ w.communityBranch = w.enterpriseBranch
      ∧ w.confirmReply = "n".toList)) :
    (mainRun cfg odoo w).decision = Decision.flavorMismatch
        (if dbIsEnterprise w = true then msgDbIsEnterprise else msgDbNotEnterprise)
      ∧ exitCodeOf (mainRun cfg odoo w).decision = some 0
      ∧ ∀ s, ¬ (mainRun cfg odoo w).decision = Decision.launch s := by
  have hrun := mainRun_core cfg odoo w hs hc hl
    (fun hp => Bool.noConfusion (hdrop ▸ hp.1))
  have hcore := mainCore_flavorMismatch cfg odoo w hdrop hmm hnod
  rw [hrun]
  refine ⟨hcore, ?_, ?_⟩
  · show exitCodeOf (mainCore cfg odoo w) = some 0
    rw [hcore]
    rfl
  · intro s
    show ¬ mainCore cfg odoo w = Decision.launch s
    rw [hcore]
    exact fun h => Decision.noConfusion h

/-- Witness for the amended claim C1 at a concrete input. -/
theorem c1_flavor_mismatch_aborts_w :
    (mainRun { emptyConfig with enterprise := true } [] wNoDb).decision
        = Decision.flavorMismatch
          (if dbIsEnterprise wNoDb = true then msgDbIsEnterprise else msgDbNotEnterprise)
      ∧ exitCodeOf (mainRun { emptyConfig with enterprise := true } [] wNoDb).decision
        = some 0
      ∧ ∀ s, ¬ (mainRun { emptyConfig with enterprise := true } [] wNoDb).decision
        = Decision.launch s :=
  c1_flavor_mismatch_aborts { emptyConfig with enterprise := true } [] wNoDb
    rfl rfl rfl rfl (by decide) (by decide)

/-! ### Claim C2 -/

/-- Claim C2: with dropDbRequested = true (and status not requested) the
flavor-consistency check of step 4 is never evaluated: the run never
produces the enterprise/DB mismatch abort, and the outcome does not
depend on the DB observation at all. -/
theorem c2_drop_skips_flavor_check (cfg : Config) (odoo : List Str) (w : World)
    (hdrop : cfg.drop_db = true) (hs : cfg.status = false) :
    (∀ m, ¬ (mainRun cfg odoo w).decision = Decision.flavorMismatch m)
      ∧ ∀ q1 q2, mainRun cfg odoo (setDb w q1 q2) = mainRun cfg odoo w := by
  constructor
  · intro m h
    have hfalse := flavorMismatch_drop_false cfg odoo w m h
    rw [hdrop] at hfalse
    exact Bool.noConfusion hfalse
  · intro q1 q2
    unfold mainRun
    simp only [setDb_dropOk]
    rw [mainCore_setDb cfg odoo w q1 q2 hdrop]
    by_cases hst : cfg.status = true
    · rw [hst] at hs
      exact Bool.noConfusion hs
    · rw [if_neg hst, if_neg hst]

/-- Witness for claim C2 at a concrete input, with the inner universal
statements instantiated as well. -/
theorem c2_drop_skips_flavor_check_w :
    (¬ (mainRun { emptyConfig with drop_db := true } [] wNoDb).decision
        = Decision.flavorMismatch msgDbNotEnterprise)
      ∧ mainRun { emptyConfig with drop_db := true } []
          (setDb wNoDb (some "x".toList) (some "(1 row)".toList))
        = mainRun { emptyConfig with drop_db := true } [] wNoDb :=
  ⟨(c2_drop_skips_flavor_check { emptyConfig with drop_db := true } [] wNoDb rfl rfl).1
      msgDbNotEnterprise,
    (c2_drop_skips_flavor_check { emptyConfig with drop_db := true } [] wNoDb rfl rfl).2
      (some "x".toList) (some "(1 row)".toList)⟩

/-! ### Claim C3 -/

/-- Claim C3: every launch reached with webTestMode on carries the
test-enablement flags and the web-suite tag filter in its argument
string, and test mode is forced on even when the test flag was not set
independently. -/
theorem c3_web_mode_flags (cfg : Config) (odoo : List Str) (w : World) (s : Str)
    (hweb : cfg.web = true) (h : (mainRun cfg odoo w).decision = Decision.launch s) :
    pyIn "--test-enable".toList s = true
      ∧ pyIn "--stop-after-init".toList s = true
      ∧ pyIn "--test-tags /web:WebSuite".toList s = true
      ∧ (applyWebImpliesTest cfg).test = true := by
  have hshape := mainRun_launch_shape cfg odoo w s h
  subst hshape
  have htest : (applyWebImpliesTest cfg).test = true := by
    rw [applyWeb_test, hweb, Bool.or_true]
  have hwb : (applyWebImpliesTest cfg).web = true := by rw [applyWeb_web, hweb]
  refine ⟨?_, ?_, ?_, htest⟩
  all_goals
    unfold assembled testArgs
    rw [if_pos htest, if_pos hwb]
    exact pyIn_append_mid _ _ (by decide)

/-- Witness for claim C3 at a concrete input. -/
theorem c3_web_mode_flags_w :
    pyIn "--test-enable".toList scenarioBString = true
      ∧ pyIn "--stop-after-init".toList scenarioBString = true
      ∧ pyIn "--test-tags /web:WebSuite".toList scenarioBString = true
      ∧ (applyWebImpliesTest cfgWebOnly).test = true :=
  c3_web_mode_flags cfgWebOnly [] wNoDb scenarioBString rfl (by decide)

/-! ### Claim C4 -/

/-- Claim C4 counterexample: in scenario B the assembled string does NOT
contain the stop-after-init flag before the test-enable flag — the code
emits test-enable first — so the order stated by the claim
(stop-after-init, then test-enable, then the web-suite filter) is false
at this concrete input. -/
theorem c4_flag_order_cex :
    (mainRun cfgWebOnly [] wNoDb).decision = Decision.launch scenarioBString
      ∧ ¬ InOrder3 scenarioBString "--stop-after-init".toList "--test-enable".toList
          "--test-tags /web:WebSuite".toList := by
  constructor
  · decide
  · rintro ⟨i, j, k, hij, hjk, h1, h2, h3⟩
    have hlen : scenarioBString.length = 135 := by decide
    have hb1 := matchesAt_le (by decide) h1
    have hb2 := matchesAt_le (by decide) h2
    rw [hlen] at hb1 hb2
    have hl1 : ("--stop-after-init".toList).length = 17 := by decide
    have hl2 : ("--test-enable".toList).length = 13 := by decide
    rw [hl1] at hb1
    rw [hl2] at hb2
    have hu1 : ∀ n < 136,
        matchesAt scenarioBString "--stop-after-init".toList n = true → n = 91 := by decide
    have hu2 : ∀ n < 136,
        matchesAt scenarioBString "--test-enable".toList n = true → n = 77 := by decide
    have hi : i = 91 := hu1 i (by omega) h1
    have hj : j = 77 := hu2 j (by omega) h2
    omega

/-- Claim C4, amended (the actual flag order is test-enable, then
stop-after-init, then the web-suite tag filter): in scenario B
(webTestMode on, enterprise not requested, DB observation not enterprise)
the decision is a launch whose argument string is the scenario-B string
(addons path `addons`) followed by the passthrough arguments, and the
three flags occur in the order test-enable, stop-after-init, web-suite
tag filter. -/
theorem c4_scenarioB_order (cfg : Config) (odoo : List Str) (w : World)
    (hweb : cfg.web = true) (hent : cfg.enterprise = false)
    (hs : cfg.status = false) (hc : cfg.clean_branches = false)
    (hl : cfg.list_branches = false) (hdrop : cfg.drop_db = false)
    (hdb : dbIsEnterprise w = false) :
    (mainRun cfg odoo w).decision = Decision.launch (scenarioBString ++ joinSpace odoo)
      ∧ InOrder3 (scenarioBString ++ joinSpace odoo) "--test-enable".toList
          "--stop-after-init".toList "--test-tags /web:WebSuite".toList := by
  have htest : (applyWebImpliesTest cfg).test = true := by
    rw [applyWeb_test, hweb, Bool.or_true]
  have hwb : (applyWebImpliesTest cfg).web = true := by rw [applyWeb_web, hweb]
  have heb : (applyWebImpliesTest cfg).enterprise = false := by
    rw [applyWeb_enterprise, hent]
  have hassembled : assembled (applyWebImpliesTest cfg) odoo
      = scenarioBString ++ joinSpace odoo := by
    unfold assembled testArgs baseArgs addonsPath
    rw [if_pos htest, if_pos hwb,
      if_neg (fun hx => Bool.noConfusion (heb ▸ hx))]
    congr 1
  constructor
  · have hrun := mainRun_core cfg odoo w hs hc hl
      (fun hp => Bool.noConfusion (hdrop ▸ hp.1))
    have hcore := mainCore_launch cfg odoo w
      (fun hp => Bool.noConfusion (hent ▸ hp.1))
      (fun hp => hp.2 (by rw [hdb, hent]))
    rw [hrun]
    show mainCore cfg odoo w = _
    rw [hcore, hassembled]
  · refine ⟨77, 91, 109, by omega, by omega, ?_, ?_, ?_⟩
    · rw [matchesAt_append_left (joinSpace odoo) (by decide)]
      decide
    · rw [matchesAt_append_left (joinSpace odoo) (by decide)]
      decide
    · rw [matchesAt_append_left (joinSpace odoo) (by decide)]
      decide

/-- Witness for the amended claim C4 at a concrete input. -/
theorem c4_scenarioB_order_w :
    (mainRun cfgWebOnly ["foo".toList] wNoDb).decision
        = Decision.launch (scenarioBString ++ joinSpace ["foo".toList])
      ∧ InOrder3 (scenarioBString ++ joinSpace ["foo".toList]) "--test-enable".toList
          "--stop-after-init".toList "--test-tags /web:WebSuite".toList :=
  c4_scenarioB_order cfgWebOnly ["foo".toList] wNoDb rfl rfl rfl rfl rfl rfl (by decide)

/-! ### Claim C5 -/

/-- A command line whose passthrough sequence itself contains `--`. -/
def argvDoubleSep : List Str := ["-t".toList, sep, "x".toList, sep, "y".toList]

/-- The argument string the pipeline actually assembles for
`argvDoubleSep`: the passthrough tokens are gone. -/
def doubleSepLaunchString : Str :=
  "-r odoo -w odoo -d testdb --db-filter=testdb --dev=all --addons-path addons  --test-enable --stop-after-init ".toList

/-- Claim C5 counterexample: on the command line `-t -- x -- y` the tokens
following the first `--` separator are `x -- y`, but the loop in
parse_args keeps scanning the original token list after truncating
`args`, so the second `--` resets the passthrough list to empty: the
launch string contains no `x` at all.  Tokens after `--` are therefore
NOT forwarded verbatim when one of them is itself `--`. -/
theorem c5_passthrough_cex :
    specPassthrough argvDoubleSep = ["x".toList, sep, "y".toList]
      ∧ (parseSplit argvDoubleSep).2 = []
      ∧ pipeline argvDoubleSep wNoDb
        = some ⟨false, Decision.launch doubleSepLaunchString⟩
      ∧ pyIn "x".toList doubleSepLaunchString = false := by
  refine ⟨by decide, by decide, by decide, by decide⟩

/-- Claim C5, amended: when the command line contains at most one `--`
token, the tokens following it are forwarded verbatim, space-joined and
in original order, at the end of the assembled argument string, in every
mode.  (When the passthrough sequence itself contains a further `--`, the
forwarded sequence instead collapses to empty, as the counterexample
shows.) -/
theorem c5_passthrough_single_sep (argv : List Str) (w : World) (o : Outcome) (s : Str)
    (hcount : argv.count sep ≤ 1)
    (hp : pipeline argv w = some o)
    (hl : o.decision = Decision.launch s) :
    (parseSplit argv).2 = specPassthrough argv
      ∧ ∃ p, s = p ++ joinSpace (specPassthrough argv) := by
  have hsplit := parseSplit_eq_spec argv hcount
  have hsnd : (parseSplit argv).2 = specPassthrough argv := by rw [hsplit]
  refine ⟨hsnd, ?_⟩
  unfold pipeline at hp
  cases hpf : parseFlags (parseSplit argv).1 with
  | none => rw [hpf] at hp; cases hp
  | some cfg =>
    rw [hpf] at hp
    simp only [Option.map_some'] at hp
    have ho : o = mainRun cfg (parseSplit argv).2 w := by
      injection hp with h
      exact h.symm
    rw [ho] at hl
    have hshape := mainRun_launch_shape cfg (parseSplit argv).2 w s hl
    obtain ⟨p, hpend⟩ := assembled_ends_with_join (applyWebImpliesTest cfg) (parseSplit argv).2
    refine ⟨p, ?_⟩
    rw [hshape, hpend, hsnd]

/-- A command line with a single `--` separator and two passthrough
tokens. -/
def argvSingleSep : List Str := ["-t".toList, sep, "foo".toList, "bar".toList]

/-- The launch string the pipeline assembles for `argvSingleSep`. -/
def singleSepLaunchString : Str :=
  "-r odoo -w odoo -d testdb --db-filter=testdb --dev=all --addons-path addons  --test-enable --stop-after-init foo bar".toList

/-- Witness for the amended claim C5 at a concrete input. -/
theorem c5_passthrough_single_sep_w :
    (parseSplit argvSingleSep).2 = specPassthrough argvSingleSep
      ∧ ∃ p, singleSepLaunchString = p ++ joinSpace (specPassthrough argvSingleSep) :=
  c5_passthrough_single_sep argvSingleSep wNoDb
    ⟨false, Decision.launch singleSepLaunchString⟩ singleSepLaunchString
    (by decide) (by decide) rfl

/-! ### Claim C6 -/

/-- Claim C6: whenever the DB inspection fails (the version query cannot
be run, its output has no third whitespace token, or the enterprise query
cannot be run), get_db_version degrades to the sentinel "?", which does
not count as enterprise; consequently, with enterprise requested and no
drop, the run ends in the flavor-mismatch error naming the database as
not enterprise. -/
theorem c6_db_failure_sentinel (cfg : Config) (odoo : List Str) (w : World)
    (hfail : w.dbVersionQuery = none
      ∨ (∃ o1, w.dbVersionQuery = some o1 ∧ (pySplitWs o1).get? 2 = none)
      ∨ w.dbEnterpriseQuery = none)
    (hent : cfg.enterprise = true) (hdrop : cfg.drop_db = false)
    (hs : cfg.status = false) (hc : cfg.clean_branches = false)
    (hl : cfg.list_branches = false)
    (hnod : ¬ (cfg.enterprise = true ∧ ¬ w.communityBranch = w.enterpriseBranch
      ∧ w.confirmReply = "n".toList)) :
    get_db_version w = "?".toList
      ∧ dbIsEnterprise w = false
      ∧ (mainRun cfg odoo w).decision = Decision.flavorMismatch msgDbNotEnterprise := by
  have hq : get_db_version w = "?".toList := by
    rcases hfail with h1 | ⟨o1, h1, h2⟩ | h1
    · simp only [get_db_version, h1]
    · simp only [get_db_version, h1, h2]
    · cases hv : w.dbVersionQuery with
      | none => simp only [get_db_version, hv]
      | some o1 =>
        cases hg : (pySplitWs o1).get? 2 with
        | none => simp only [get_db_version, hv, hg]
        | some rl => simp only [get_db_version, hv, hg, h1]
  have hdb : dbIsEnterprise w = false := by
    unfold dbIsEnterprise
    rw [hq]
    decide
  refine ⟨hq, hdb, ?_⟩
  have hrun := mainRun_core cfg odoo w hs hc hl
    (fun hp => Bool.noConfusion (hdrop ▸ hp.1))
  have hcore := mainCore_flavorMismatch cfg odoo w hdrop
    (fun hx => Bool.noConfusion (hdb ▸ hent ▸ hx)) hnod
  rw [hrun]
  show mainCore cfg odoo w = _
  rw [hcore, if_neg (fun hx => Bool.noConfusion (hdb ▸ hx))]

/-- Witness for claim C6 at a concrete input. -/
theorem c6_db_failure_sentinel_w :
    get_db_version wNoDb = "?".toList
      ∧ dbIsEnterprise wNoDb = false
      ∧ (mainRun { emptyConfig with enterprise := true } [] wNoDb).decision
        = Decision.flavorMismatch msgDbNotEnterprise :=
  c6_db_failure_sentinel { emptyConfig with enterprise := true } [] wNoDb
    (Or.inl rfl) rfl rfl rfl rfl rfl (by decide)

/-! ### Claim C7 -/

/-- Claim C7: with enterprise requested, differing branch names and the
prompt declined (reply exactly "n"), the run ends user-cancelled with
exit code 0, and the outcome does not depend on the DB observation — the
flavor check is never performed. -/
theorem c7_decline_exit0 (cfg : Config) (odoo : List Str) (w : World)
    (hent : cfg.enterprise = true) (hs : cfg.status = false)
    (hc : cfg.clean_branches = false) (hl : cfg.list_branches = false)
    (hdok : ¬ (cfg.drop_db = true ∧ w.dropOk = false))
    (hb : ¬ w.communityBranch = w.enterpriseBranch)
    (hr : w.confirmReply = "n".toList) :
    (mainRun cfg odoo w).decision = Decision.userCancelled
      ∧ exitCodeOf (mainRun cfg odoo w).decision = some 0
      ∧ ∀ q1 q2, mainRun cfg odoo (setDb w q1 q2) = mainRun cfg odoo w := by
  have hrun := mainRun_core cfg odoo w hs hc hl hdok
  have hcore := mainCore_userCancelled cfg odoo w hent hb hr
  refine ⟨?_, ?_, ?_⟩
  · rw [hrun]
    exact hcore
  · rw [hrun]
    show exitCodeOf (mainCore cfg odoo w) = some 0
    rw [hcore]
    rfl
  · intro q1 q2
    have hdok2 : ¬ (cfg.drop_db = true ∧ (setDb w q1 q2).dropOk = false) := by
      rw [setDb_dropOk]
      exact hdok
    have hrun2 := mainRun_core cfg odoo (setDb w q1 q2) hs hc hl hdok2
    have hcore2 := mainCore_userCancelled cfg odoo (setDb w q1 q2) hent
      (by rw [setDb_communityBranch, setDb_enterpriseBranch]; exact hb)
      (by rw [setDb_confirmReply]; exact hr)
    rw [hrun, hrun2, hcore, hcore2]

/-- A world with differing branches where the user declines the prompt. -/
def wDecline : World :=
  { wNoDb with enterpriseBranch := "feature-x".toList, confirmReply := "n".toList }

/-- Witness for claim C7 at a concrete input, with the inner universal
statement instantiated as well. -/
theorem c7_decline_exit0_w :
    (mainRun { emptyConfig with enterprise := true } [] wDecline).decision
        = Decision.userCancelled
      ∧ exitCodeOf (mainRun { emptyConfig with enterprise := true } [] wDecline).decision
        = some 0
      ∧ mainRun { emptyConfig with enterprise := true } []
          (setDb wDecline (some "v".toList) (some "(1 row)".toList))
        = mainRun { emptyConfig with enterprise := true } [] wDecline := by
  have h := c7_decline_exit0 { emptyConfig with enterprise := true } [] wDecline
    rfl rfl rfl rfl (by decide) (by decide) rfl
  exact ⟨h.1, h.2.1, h.2.2 (some "v".toList) (some "(1 row)".toList)⟩

/-! ### Claim C8 -/

/-- Claim C8: with statusRequested, the run prints the status report and
exits 0; no drop is attempted, the outcome is independent of the
confirmation prompt (no branch-consistency prompt happens), and no
launch occurs. -/
theorem c8_status_pure (cfg : Config) (odoo : List Str) (w : World)
    (hs : cfg.status = true) :
    mainRun cfg odoo w = ⟨false, Decision.statusShown (showStatusLines w)⟩
      ∧ exitCodeOf (mainRun cfg odoo w).decision = some 0
      ∧ (mainRun cfg odoo w).dropAttempted = false
      ∧ (∀ r, mainRun cfg odoo (setReply w r) = mainRun cfg odoo w)
      ∧ ∀ s, ¬ (mainRun cfg odoo w).decision = Decision.launch s := by
  have h1 : mainRun cfg odoo w = ⟨false, .statusShown (showStatusLines w)⟩ := by
    unfold mainRun
    rw [if_pos hs]
  refine ⟨h1, ?_, ?_, ?_, ?_⟩
  · rw [h1]
    rfl
  · rw [h1]
  · intro r
    unfold mainRun
    rw [if_pos hs, if_pos hs]
    rfl
  · intro s
    rw [h1]
    exact fun h => Decision.noConfusion h

/-- Witness for claim C8 at a concrete input, with the inner universal
statements instantiated as well. -/
theorem c8_status_pure_w :
    mainRun { emptyConfig with status := true } [] wEntDb
        = ⟨false, Decision.statusShown (showStatusLines wEntDb)⟩
      ∧ exitCodeOf (mainRun { emptyConfig with status := true } [] wEntDb).decision
        = some 0
      ∧ (mainRun { emptyConfig with status := true } [] wEntDb).dropAttempted = false
      ∧ mainRun { emptyConfig with status := true } [] (setReply wEntDb "n".toList)
        = mainRun { emptyConfig with status := true } [] wEntDb
      ∧ ¬ (mainRun { emptyConfig with status := true } [] wEntDb).decision
        = Decision.launch scenarioBString := by
  have h := c8_status_pure { emptyConfig with status := true } [] wEntDb rfl
  exact ⟨h.1, h.2.1, h.2.2.1, h.2.2.2.1 "n".toList, h.2.2.2.2 scenarioBString⟩

/-! ### Claim C9 -/

/-- Claim C9 counterexample: the configuration parsed from the command
line `-w` has test = false, but before the decision logic runs the
script executes `config.test = True`, mutating the parsed request — so
the LaunchRequest is NOT immutable after construction. -/
theorem c9_immutable_cex :
    parseFlags ["-w".toList] = some cfgWebOnly
      ∧ ¬ applyWebImpliesTest cfgWebOnly = cfgWebOnly
      ∧ cfgWebOnly.test = false
      ∧ (applyWebImpliesTest cfgWebOnly).test = true := by
  refine ⟨by decide, by decide, by decide, by decide⟩

/-- Claim C9, amended: the parsed request is mutated exactly once, before
any decision logic, and only in its test field, which becomes
test OR web; every other field keeps its parsed value. -/
theorem c9_only_test_mutated (cfg : Config) :
    applyWebImpliesTest cfg = { cfg with test := cfg.test || cfg.web } := by
  obtain ⟨e, t, d, cb, lb, wb, st⟩ := cfg
  cases wb <;> simp [applyWebImpliesTest]

/-- Witness for the amended claim C9 at a concrete input. -/
theorem c9_only_test_mutated_w :
    applyWebImpliesTest cfgWebOnly
      = { cfgWebOnly with test := cfgWebOnly.test || cfgWebOnly.web } :=
  c9_only_test_mutated cfgWebOnly

/-! ### Claim C10 -/

/-- Claim C10: when the branch-mismatch prompt is reached (enterprise
requested, branch names differ, none of the early-exit commands, drop
not failing), the run is user-cancelled exactly when the reply is the
single lowercase character "n"; any other reply continues past the
prompt. -/
theorem c10_decline_iff_exact_n (cfg : Config) (odoo : List Str) (w : World)
    (hent : cfg.enterprise = true) (hs : cfg.status = false)
    (hc : cfg.clean_branches = false) (hl : cfg.list_branches = false)
    (hdok : ¬ (cfg.drop_db = true ∧ w.dropOk = false))
    (hb : ¬ w.communityBranch = w.enterpriseBranch) :
    ((mainRun cfg odoo w).decision = Decision.userCancelled
      ↔ w.confirmReply = "n".toList) := by
  have hrun := mainRun_core cfg odoo w hs hc hl hdok
  rw [hrun]
  show (mainCore cfg odoo w = Decision.userCancelled ↔ _)
  constructor
  · intro h
    by_contra hr
    simp only [mainCore] at h
    rw [if_neg (fun hco => hr hco.2.2)] at h
    split at h
    · exact Decision.noConfusion h
    · exact Decision.noConfusion h
  · intro hr
    exact mainCore_userCancelled cfg odoo w hent hb hr

/-- A world with differing branches where the reply is "N", not "n". -/
def wReplyCapitalN : World :=
  { wNoDb with enterpriseBranch := "feature-x".toList, confirmReply := "N".toList }

/-- Witness for claim C10 at a concrete input: with the reply "N" the
decline-iff reduces to an equivalence with a false right side. -/
theorem c10_decline_iff_exact_n_w :
    ((mainRun { emptyConfig with enterprise := true } [] wReplyCapitalN).decision
        = Decision.userCancelled
      ↔ wReplyCapitalN.confirmReply = "n".toList) :=
  c10_decline_iff_exact_n { emptyConfig with enterprise := true } [] wReplyCapitalN
    rfl rfl rfl rfl (by decide) (by decide)

end StartOdoo
